import Mathlib

/-!
# KaaS front end: view state and request contract

A shallow embedding of the React client under `src/frontend/src`:

* `api.js`          : the four request builders,
* `pages/Chat.jsx`  : the Chat view (history, input text, filter, in-flight flag),
* `pages/Upload.jsx`: the Upload view (selected file, uploading flag, message),
* `App.jsx`         : the Root view (active tab, Document list, flags, reset).

Component state is an explicit record.  An `async` handler is split at its
single `await`: the part that runs synchronously when the event fires keeps
the handler's name and returns the new state together with the effects it
issued (network requests, dialogs, console output); the part that runs when
the promise settles is the `...Resume` function, which takes the settled
value as an argument.  All `setX` calls of one synchronous run are applied
together, as React batches them.
-/

namespace KaaS

/-! ## JavaScript values -/

/-- The code points stripped by `String.prototype.trim`: ECMAScript WhiteSpace
(TAB, VT, FF, ZWNBSP and the Unicode space separators) and LineTerminator
(LF, CR, LS, PS). -/
def jsIsWhiteSpace (c : Char) : Bool :=
  let n := c.toNat
  n == 0x9 || n == 0xA || n == 0xB || n == 0xC || n == 0xD || n == 0x20 ||
  n == 0xA0 || n == 0x1680 || (0x2000 ≤ n && n ≤ 0x200A) || n == 0x2028 ||
  n == 0x2029 || n == 0x202F || n == 0x205F || n == 0x3000 || n == 0xFEFF

/-- Embeds `s.trim()`: white space removed from both ends. -/
def jsTrim (s : String) : String :=
  ⟨((s.data.dropWhile jsIsWhiteSpace).reverse.dropWhile jsIsWhiteSpace).reverse⟩

/-- Truthiness of a string: every string but the empty one. -/
def jsTruthy (s : String) : Bool := !s.data.isEmpty

/-- Embeds `x || fallback` for `x` a string or `undefined`: the fallback is taken when
`x` is `undefined` or the empty string. -/
def jsOr (x : Option String) (fallback : String) : String :=
  match x with
  | some v => if jsTruthy v then v else fallback
  | none => fallback

/-- The body of an error response, `error.response.data`. -/
structure ErrorData where
  detail : Option String
deriving DecidableEq, Repr

/-- The response attached to a rejected request, when the server answered. -/
structure ErrorResponse where
  data : Option ErrorData
deriving DecidableEq, Repr

/-- The value a rejected axios promise carries. -/
structure AxiosError where
  response : Option ErrorResponse
deriving DecidableEq, Repr

/-- The chain `error.response?.data?.detail`. -/
def AxiosError.detail (e : AxiosError) : Option String :=
  (e.response.bind (fun r => r.data)).bind (fun d => d.detail)

/-- How an awaited request ends: resolved with the response data, or rejected. -/
inductive Settled (α : Type) where
  | resolved (data : α)
  | rejected (error : AxiosError)
deriving DecidableEq, Repr

/-! ## Data model -/

structure Document where
  id : String
  filename : String
deriving DecidableEq, Repr

structure Source where
  filename : String
  chunk_index : Int
  snippet : String
deriving DecidableEq, Repr

/-- A browser `File`: its name and its bytes. -/
structure File where
  name : String
  bytes : List Nat
deriving DecidableEq, Repr

/-- Response data of `POST /upload`. -/
structure UploadResult where
  filename : String
  upload_id : String
deriving DecidableEq, Repr

/-- Response data of `POST /query`. -/
structure QueryData where
  answer : String
  sources : List Source
deriving DecidableEq, Repr

/-! ## api.js -/

inductive Method where
  | get
  | post
deriving DecidableEq, Repr

inductive Body where
  | empty
  | formData (file : File)
  | json (question : String) (filename : Option String) (k : Nat)
deriving DecidableEq, Repr

structure Request where
  method : Method
  url : String
  body : Body
deriving DecidableEq, Repr

def API_URL : String := "/api"

def uploadFile (file : File) : Request :=
  ⟨.post, API_URL ++ "/upload", .formData file⟩

/-- Embeds `postQuery(question, filename = null, k = 7)`: an argument left out is
`none` and takes its default; `filename` itself is `null` (`none`) or a string. -/
def postQuery (question : String) (filename : Option (Option String))
    (k : Option Nat) : Request :=
  ⟨.post, API_URL ++ "/query", .json question (filename.getD none) (k.getD 7)⟩

def listDocuments : Request :=
  ⟨.get, API_URL ++ "/documents", .empty⟩

def resetAllData : Request :=
  ⟨.post, API_URL ++ "/reset", .empty⟩

/-- What a handler does besides updating state. -/
inductive Effect where
  | request (r : Request)
  | confirm (text : String)
  | alert (text : String)
  | consoleError (label : String)
  | onUploadSuccess
deriving DecidableEq, Repr

/-- The network calls among a handler's effects, in order. -/
def networkCalls : List Effect → List Request
  | [] => []
  | .request r :: rest => r :: networkCalls rest
  | _ :: rest => networkCalls rest

/-! ## pages/Chat.jsx -/

inductive Sender where
  | user
  | assistant
deriving DecidableEq, Repr

/-- One turn of the conversation; a user turn has no `sources` field. -/
structure Message where
  sender : Sender
  text : String
  sources : Option (List Source)
deriving DecidableEq, Repr

structure ChatState where
  query : String
  messages : List Message
  loading : Bool
  selectedDoc : String
deriving DecidableEq, Repr

/-- The four `useState` initial values of `Chat`. -/
def Chat.initial : ChatState :=
  { query := "", messages := [], loading := false, selectedDoc := "" }

/-- Embeds `onChange` of the text input. -/
def setQuery (s : ChatState) (text : String) : ChatState :=
  { s with query := text }

/-- Embeds `onChange` of the filter `<select>`. -/
def setSelectedDoc (s : ChatState) (value : String) : ChatState :=
  { s with selectedDoc := value }

/-- The `value`s of the `<option>`s rendered for the Document list `docs`. -/
def filterOptions (docs : List Document) : List String :=
  "all" :: docs.map (fun doc => doc.filename)

/-- Embeds `handleQuerySubmit` up to its `await`. -/
def handleQuerySubmit (s : ChatState) : ChatState × List Effect :=
  if !jsTruthy (jsTrim s.query) || s.loading then (s, [])
  else
    let userMessage : Message := { sender := .user, text := s.query, sources := none }
    let filename : Option String := if s.selectedDoc = "all" then none else some s.selectedDoc
    ({ s with messages := s.messages ++ [userMessage], loading := true, query := "" },
     [.request (postQuery s.query (some filename) none)])

/-- The assistant turn built from a settled query: the `try` branch on
success, the `catch` branch on failure. -/
def assistantMessage (r : Settled QueryData) : Message :=
  match r with
  | .resolved data => { sender := .assistant, text := data.answer, sources := some data.sources }
  | .rejected error =>
    let errorMsg := jsOr error.detail "Failed to get an answer."
    { sender := .assistant, text := "Error: " ++ errorMsg, sources := some [] }

/-- Embeds `handleQuerySubmit` from the point where the awaited `postQuery` settles,
`finally` included. -/
def handleQuerySubmitResume (s : ChatState) (r : Settled QueryData) : ChatState :=
  { s with messages := s.messages ++ [assistantMessage r], loading := false }

/-- One question asked from start to finish: typed, submitted, and settled. -/
def askOnce (s : ChatState) (q : String) (r : Settled QueryData) : ChatState :=
  handleQuerySubmitResume (handleQuerySubmit (setQuery s q)).1 r

/-- Questions asked one after the other, each after the previous one settled. -/
def askAll (s : ChatState) : List (String × Settled QueryData) → ChatState
  | [] => s
  | (q, r) :: rest => askAll (askOnce s q r) rest

/-- The turns that a list of questions and their outcomes stands for: for each,
the user turn carrying the question, then the assistant turn carrying the
response. -/
def expectedTurns : List (String × Settled QueryData) → List Message
  | [] => []
  | (q, r) :: rest =>
    { sender := .user, text := q, sources := none } :: assistantMessage r :: expectedTurns rest

/-- What can happen to a mounted Chat view whose Document list is `docs`: the
user types, picks one of the rendered filter options, submits, or the
outstanding query settles. -/
inductive ChatStep (docs : List Document) : ChatState → ChatState → Prop where
  | type (s : ChatState) (text : String) : ChatStep docs s (setQuery s text)
  | select (s : ChatState) (value : String) (h : value ∈ filterOptions docs) :
      ChatStep docs s (setSelectedDoc s value)
  | submit (s : ChatState) : ChatStep docs s (handleQuerySubmit s).1
  | settle (s : ChatState) (r : Settled QueryData) (h : s.loading = true) :
      ChatStep docs s (handleQuerySubmitResume s r)

/-- States of the Chat view reachable from its initial state. -/
inductive ChatReachable (docs : List Document) : ChatState → Prop where
  | initial : ChatReachable docs Chat.initial
  | step {s t : ChatState} (hs : ChatReachable docs s) (h : ChatStep docs s t) :
      ChatReachable docs t

/-! ## pages/Upload.jsx -/

structure UploadState where
  selectedFile : Option File
  uploading : Bool
  message : String
deriving DecidableEq, Repr

/-- The three `useState` initial values of `Upload`. -/
def Upload.initial : UploadState :=
  { selectedFile := none, uploading := false, message := "" }

/-- Embeds `handleFileChange`: `event.target.files[0]` is `undefined` when the picker
was cancelled. -/
def handleFileChange (s : UploadState) (file : Option File) : UploadState :=
  { s with selectedFile := file, message := "" }

/-- Embeds `handleUpload` up to its `await`. -/
def handleUpload (s : UploadState) : UploadState × List Effect :=
  match s.selectedFile with
  | none => ({ s with message := "Please select a file first." }, [])
  | some file =>
    ({ s with uploading := true, message := "Uploading " ++ file.name ++ "..." },
     [.request (uploadFile file)])

/-- Embeds `handleUpload` from the point where the awaited `uploadFile` settles,
`finally` included; `onUploadSuccess` tells whether the callback prop is set. -/
def handleUploadResume (onUploadSuccess : Bool) (s : UploadState)
    (r : Settled UploadResult) : UploadState × List Effect :=
  match r with
  | .resolved data =>
    ({ s with
        message := "✅ Success: " ++ data.filename ++ " is being processed. (ID: " ++
          data.upload_id ++ ")",
        selectedFile := none,
        uploading := false },
     if onUploadSuccess then [.onUploadSuccess] else [])
  | .rejected error =>
    let errorMsg := jsOr error.detail "An unexpected error occurred."
    ({ s with message := "❌ Error: " ++ errorMsg, uploading := false },
     [.consoleError "Upload failed:"])

/-! ## App.jsx -/

inductive Tab where
  | upload
  | chat
deriving DecidableEq, Repr

/-- State of the Root view: its four `useState` cells and the state of the
child views that are mounted under `<main>`. -/
structure AppState where
  activeTab : Tab
  docs : List Document
  loadingDocs : Bool
  docError : String
  uploadView : Option UploadState
  chatView : Option ChatState
deriving DecidableEq, Repr

/-- The children of `<main>` for active tab `t`:
`{activeTab === 'upload' && <Upload/>}` and `{activeTab === 'chat' && <Chat/>}`.
A view whose condition is false is not in the tree: React unmounts it and
drops its state.  A view whose condition is true keeps its state when it was
mounted already and starts from its `useState` initial values otherwise. -/
def renderMain (t : Tab) (uploadView : Option UploadState) (chatView : Option ChatState) :
    Option UploadState × Option ChatState :=
  (if t = .upload then some (uploadView.getD Upload.initial) else none,
   if t = .chat then some (chatView.getD Chat.initial) else none)

/-- First render of `App`. -/
def App.initial : AppState :=
  { activeTab := .chat, docs := [], loadingDocs := true, docError := "",
    uploadView := (renderMain .chat none none).1,
    chatView := (renderMain .chat none none).2 }

/-- Embeds `setActiveTab(t)` followed by the re-render it causes. -/
def setActiveTab (s : AppState) (t : Tab) : AppState :=
  { s with
    activeTab := t,
    uploadView := (renderMain t s.uploadView s.chatView).1,
    chatView := (renderMain t s.uploadView s.chatView).2 }

/-- Embeds `fetchDocs` up to its `await`. -/
def fetchDocs (s : AppState) : AppState × List Effect :=
  ({ s with loadingDocs := true, docError := "" }, [.request listDocuments])

/-- Embeds `fetchDocs` from the point where the awaited `listDocuments` settles,
`finally` included. -/
def fetchDocsResume (s : AppState) (r : Settled (List Document)) : AppState × List Effect :=
  match r with
  | .resolved data => ({ s with docs := data, loadingDocs := false }, [])
  | .rejected _ =>
    ({ s with docError := "Could not load document list.", loadingDocs := false },
     [.consoleError "Failed to fetch documents:"])

/-- Embeds `handleUploadSuccess`: starts a fetch and switches to the chat tab. -/
def handleUploadSuccess (s : AppState) : AppState × List Effect :=
  (setActiveTab (fetchDocs s).1 .chat, (fetchDocs s).2)

/-- Embeds `handleReset` up to its `await`; `confirmed` is what `window.confirm`
returned. -/
def handleReset (s : AppState) (confirmed : Bool) : AppState × List Effect :=
  let prompt := Effect.confirm
    "Are you sure you want to delete all uploaded data? This cannot be undone."
  if confirmed then (s, [prompt, .request resetAllData]) else (s, [prompt])

/-- Embeds `handleReset` from the point where the awaited `resetAllData` settles. -/
def handleResetResume (s : AppState) (r : Settled Unit) : AppState × List Effect :=
  match r with
  | .resolved _ =>
    ((fetchDocs s).1, .alert "All data has been successfully reset." :: (fetchDocs s).2)
  | .rejected _ =>
    (s, [.alert "Failed to reset data. See console for details.",
         .consoleError "Reset failed:"])

/-! ## Theorems -/

/-! ### Shared lemmas -/

theorem jsTruthy_jsTrim (q : String) :
    jsTruthy (jsTrim q) = !q.data.all jsIsWhiteSpace := by
  by_cases h : q.data.all jsIsWhiteSpace = true
  · have h1 : q.data.dropWhile jsIsWhiteSpace = [] := by
      rw [List.dropWhile_eq_nil_iff]
      intro c hc
      exact List.all_eq_true.mp h c hc
    simp [jsTruthy, jsTrim, h1, h]
  · have hne : q.data.dropWhile jsIsWhiteSpace ≠ [] := by
      intro h0
      rw [List.dropWhile_eq_nil_iff] at h0
      exact h (List.all_eq_true.mpr h0)
    obtain ⟨c, rest, hcr⟩ := List.exists_cons_of_ne_nil hne
    have hc : jsIsWhiteSpace c = false := by
      have := List.head_dropWhile_not jsIsWhiteSpace q.data hne
      simpa [hcr] using this
    have h2 : (q.data.dropWhile jsIsWhiteSpace).reverse.dropWhile jsIsWhiteSpace ≠ [] := by
      intro h0
      rw [List.dropWhile_eq_nil_iff] at h0
      have := h0 c (by simp [hcr])
      simp [hc] at this
    have h3 : q.data.all jsIsWhiteSpace = false := by simpa using h
    simp [jsTruthy, jsTrim, h2, h3]

theorem handleQuerySubmit_accept (s : ChatState)
    (hq : s.query.data.all jsIsWhiteSpace = false) (hl : s.loading = false) :
    handleQuerySubmit s =
      ({ s with messages := s.messages ++ [⟨.user, s.query, none⟩], loading := true, query := "" },
       [.request ⟨.post, "/api/query",
          .json s.query (if s.selectedDoc = "all" then none else some s.selectedDoc) 7⟩]) := by
  unfold handleQuerySubmit
  simp [jsTruthy_jsTrim, hq, hl, postQuery, API_URL]

theorem askOnce_messages (s : ChatState) (q : String) (r : Settled QueryData)
    (hq : q.data.all jsIsWhiteSpace = false) (hl : s.loading = false) :
    (askOnce s q r).messages = s.messages ++ [⟨.user, q, none⟩, assistantMessage r] ∧
    (askOnce s q r).loading = false := by
  unfold askOnce
  rw [handleQuerySubmit_accept (setQuery s q) hq hl]
  simp [handleQuerySubmitResume, setQuery]

theorem askAll_messages (qs : List (String × Settled QueryData)) :
    ∀ s : ChatState, s.loading = false →
      (∀ p ∈ qs, p.1.data.all jsIsWhiteSpace = false) →
      (askAll s qs).messages = s.messages ++ expectedTurns qs := by
  induction qs with
  | nil => intro s _ _; simp [askAll, expectedTurns]
  | cons p rest ih =>
    intro s hl hq
    obtain ⟨q, r⟩ := p
    have hq1 : q.data.all jsIsWhiteSpace = false := hq (q, r) (by simp)
    have hstep := askOnce_messages s q r hq1 hl
    have := ih (askOnce s q r) hstep.2 (fun p hp => hq p (by simp [hp]))
    simp [askAll, expectedTurns, this, hstep.1]

theorem expectedTurns_length (qs : List (String × Settled QueryData)) :
    (expectedTurns qs).length = 2 * qs.length := by
  induction qs with
  | nil => rfl
  | cons p rest ih => obtain ⟨q, r⟩ := p; simp [expectedTurns, ih]; omega

theorem expectedTurns_get (qs : List (String × Settled QueryData)) :
    ∀ (i : Nat) (h : i < qs.length),
      (expectedTurns qs)[2 * i]? = some ⟨.user, (qs.get ⟨i, h⟩).1, none⟩ ∧
      (expectedTurns qs)[2 * i + 1]? = some (assistantMessage (qs.get ⟨i, h⟩).2) := by
  induction qs with
  | nil => intro i h; simp at h
  | cons p rest ih =>
    intro i h
    obtain ⟨q, r⟩ := p
    cases i with
    | zero => simp [expectedTurns]
    | succ j =>
      have hj : j < rest.length := by simpa using h
      have e1 : 2 * (j + 1) = (2 * j) + 1 + 1 := by omega
      have := ih j hj
      rw [e1]
      simpa [expectedTurns] using this

theorem assistantMessage_sender (r : Settled QueryData) :
    (assistantMessage r).sender = .assistant := by
  cases r <;> rfl

theorem handleQuerySubmit_history (s : ChatState) :
    s.messages <+: (handleQuerySubmit s).1.messages := by
  unfold handleQuerySubmit
  split
  · exact List.prefix_refl _
  · exact List.prefix_append _ _

/-- Every step of the Chat view keeps a filter value that is one of the
rendered options; only the initial value is not set by a step. -/
theorem ChatStep.filter_preserved {docs : List Document} {s t : ChatState}
    (h : ChatStep docs s t) (hs : s.selectedDoc ∈ filterOptions docs) :
    t.selectedDoc ∈ filterOptions docs := by
  cases h with
  | type text => exact hs
  | select value hv => exact hv
  | submit =>
    unfold handleQuerySubmit
    split <;> exact hs
  | settle r hl => exact hs

/-! ### Chat view -/

/-- C1: submitting is a no-op when the question is empty or whitespace-only, or
when a query is still in flight: no effect (so no request) is issued and the
whole Chat state (history, input text, filter, in-flight flag) is unchanged. -/
theorem handleQuerySubmit_rejected (s : ChatState)
    (h : s.query.data.all jsIsWhiteSpace = true ∨ s.loading = true) :
    handleQuerySubmit s = (s, []) := by
  unfold handleQuerySubmit
  rcases h with h | h
  · simp [jsTruthy_jsTrim, h]
  · simp [h]

/-- Instances of C1: a whitespace-only question, and a question submitted while a query is in flight. -/
theorem handleQuerySubmit_rejected_witness :
    handleQuerySubmit { query := " \t\n", messages := [], loading := false, selectedDoc := "all" }
      = ({ query := " \t\n", messages := [], loading := false, selectedDoc := "all" }, []) ∧
    handleQuerySubmit
        { query := "second", messages := [⟨.user, "first", none⟩], loading := true,
          selectedDoc := "all" }
      = ({ query := "second", messages := [⟨.user, "first", none⟩], loading := true,
           selectedDoc := "all" }, []) :=
  ⟨handleQuerySubmit_rejected _ (Or.inl (by decide)),
   handleQuerySubmit_rejected _ (Or.inr rfl)⟩

/-- C2: an accepted submission (question not blank, nothing in flight) issues
exactly one effect, the request `POST /api/query` with body
`{question: q, filename: F, k: 7}` where `q` is the input text, `F` is `null`
when the filter is `"all"` and the filter value otherwise; `F` is never the
string `"all"`. -/
theorem handleQuerySubmit_request (s : ChatState)
    (hq : s.query.data.all jsIsWhiteSpace = false) (hl : s.loading = false) :
    (handleQuerySubmit s).2 =
      [.request ⟨.post, "/api/query",
        .json s.query (if s.selectedDoc = "all" then none else some s.selectedDoc) 7⟩] ∧
    (s.selectedDoc = "all" →
      (handleQuerySubmit s).2 = [.request ⟨.post, "/api/query", .json s.query none 7⟩]) ∧
    (s.selectedDoc ≠ "all" →
      (handleQuerySubmit s).2 =
        [.request ⟨.post, "/api/query", .json s.query (some s.selectedDoc) 7⟩]) ∧
    (∀ q k, Effect.request ⟨.post, "/api/query", .json q (some "all") k⟩ ∉
      (handleQuerySubmit s).2) := by
  rw [handleQuerySubmit_accept s hq hl]
  refine ⟨rfl, ?_, ?_, ?_⟩
  · intro h; simp [h]
  · intro h; simp [h]
  · intro q k
    by_cases h : s.selectedDoc = "all"
    · simp [h]
    · simp only [h, if_false, List.mem_singleton, Effect.request.injEq, Request.mk.injEq,
        Body.json.injEq, Option.some.injEq, true_and, not_and]
      intro _ h2
      exact absurd h2.symm h

/-- Instances of C2: the filter on `report.pdf`, and the filter on `all`. -/
theorem handleQuerySubmit_request_witness :
    (handleQuerySubmit
        { query := "What is the summary?", messages := [], loading := false,
          selectedDoc := "report.pdf" }).2 =
      [.request ⟨.post, "/api/query", .json "What is the summary?" (some "report.pdf") 7⟩] ∧
    (handleQuerySubmit
        { query := "What is the summary?", messages := [], loading := false,
          selectedDoc := "all" }).2 =
      [.request ⟨.post, "/api/query", .json "What is the summary?" none 7⟩] :=
  ⟨(handleQuerySubmit_request
      { query := "What is the summary?", messages := [], loading := false,
        selectedDoc := "report.pdf" } (by decide) rfl).2.2.1 (by decide),
   (handleQuerySubmit_request
      { query := "What is the summary?", messages := [], loading := false,
        selectedDoc := "all" } (by decide) rfl).2.1 rfl⟩

/-- C3: evaluation at the initial state.  With Document list
`[{id: "1", filename: "report.pdf"}]`, the initial Chat state is reachable, its
filter value `""` is neither `"all"` nor a listed filename, and a question
submitted before the filter is touched is sent with `filename: ""`, not
`null`. -/
theorem initial_filter_not_an_option :
    ChatReachable [⟨"1", "report.pdf"⟩] Chat.initial ∧
    Chat.initial.selectedDoc = "" ∧
    Chat.initial.selectedDoc ∉ filterOptions [⟨"1", "report.pdf"⟩] ∧
    (handleQuerySubmit (setQuery Chat.initial "What is the summary?")).2 =
      [.request ⟨.post, "/api/query", .json "What is the summary?" (some "") 7⟩] ∧
    (handleQuerySubmit (setQuery Chat.initial "What is the summary?")).2 ≠
      [.request ⟨.post, "/api/query", .json "What is the summary?" none 7⟩] := by
  refine ⟨ChatReachable.initial, rfl, by decide, by decide, by decide⟩

/-- C4, as stated, fails: an error response that carries the detail `""` gives
the text `"Error: Failed to get an answer."`, not `"Error: "` followed by the
detail. -/
theorem failed_query_empty_detail :
    (AxiosError.mk (some ⟨some ⟨some ""⟩⟩)).detail = some "" ∧
    (handleQuerySubmitResume
        (handleQuerySubmit
          { query := "hi", messages := [], loading := false, selectedDoc := "all" }).1
        (.rejected ⟨some ⟨some ⟨some ""⟩⟩⟩)).messages =
      [⟨.user, "hi", none⟩, ⟨.assistant, "Error: Failed to get an answer.", some []⟩] ∧
    (handleQuerySubmitResume
        (handleQuerySubmit
          { query := "hi", messages := [], loading := false, selectedDoc := "all" }).1
        (.rejected ⟨some ⟨some ⟨some ""⟩⟩⟩)).messages ≠
      [⟨.user, "hi", none⟩, ⟨.assistant, "Error: " ++ "", some []⟩] := by
  refine ⟨rfl, by decide, by decide⟩

/-- C4, amended: for an accepted submission whose request fails, the history
becomes the old history, the user turn, and exactly one assistant turn with
empty sources; its text is `"Error: "` followed by the detail when the error
carries a non-empty one, and by `"Failed to get an answer."` when it carries
none or an empty one; the in-flight flag is cleared. -/
theorem failed_query_turn (s : ChatState) (e : AxiosError)
    (hq : s.query.data.all jsIsWhiteSpace = false) (hl : s.loading = false) :
    (handleQuerySubmit s).1.messages = s.messages ++ [⟨.user, s.query, none⟩] ∧
    (∃ text : String,
      (handleQuerySubmitResume (handleQuerySubmit s).1 (.rejected e)).messages =
        s.messages ++ [⟨.user, s.query, none⟩, ⟨.assistant, text, some []⟩] ∧
      (∀ d, e.detail = some d → d ≠ "" → text = "Error: " ++ d) ∧
      (e.detail = none ∨ e.detail = some "" → text = "Error: Failed to get an answer.")) ∧
    (handleQuerySubmitResume (handleQuerySubmit s).1 (.rejected e)).loading = false := by
  rw [handleQuerySubmit_accept s hq hl]
  refine ⟨rfl, ⟨"Error: " ++ jsOr e.detail "Failed to get an answer.", ?_, ?_, ?_⟩, rfl⟩
  · simp [handleQuerySubmitResume, assistantMessage]
  · intro d hd hne
    have : d.data ≠ [] := fun h => hne (String.ext h)
    simp [hd, jsOr, jsTruthy, this]
  · rintro (h | h)
    · simp [h, jsOr]
    · simp [h, jsOr, jsTruthy]

/-- Instance of C4, amended: a failure carrying the detail `Document not found`. -/
theorem failed_query_turn_witness :
    (∃ text : String,
      (handleQuerySubmitResume
          (handleQuerySubmit
            { query := "hi", messages := [], loading := false, selectedDoc := "all" }).1
          (.rejected ⟨some ⟨some ⟨some "Document not found"⟩⟩⟩)).messages =
        [] ++ [⟨.user, "hi", none⟩, ⟨.assistant, text, some []⟩] ∧
      text = "Error: " ++ "Document not found") :=
  have h := (failed_query_turn
    { query := "hi", messages := [], loading := false, selectedDoc := "all" }
    ⟨some ⟨some ⟨some "Document not found"⟩⟩⟩ (by decide) rfl).2.1
  h.elim fun text ht => ⟨text, ht.1, ht.2.1 "Document not found" rfl (by decide)⟩

/-- C5: `n` questions asked one after the other from an empty history, none
blank, give exactly `2n` turns: turn `2i` is the user turn with the `i`-th
question, turn `2i+1` the assistant turn built from the `i`-th response (for a
success, its answer and its sources as returned); senders alternate; asking
one more question extends the history, and so does every single run of the
submit handler and of its continuation. -/
theorem askAll_history (s : ChatState) (qs : List (String × Settled QueryData))
    (hm : s.messages = []) (hl : s.loading = false)
    (hq : ∀ p ∈ qs, p.1.data.all jsIsWhiteSpace = false) :
    (askAll s qs).messages = expectedTurns qs ∧
    (askAll s qs).messages.length = 2 * qs.length ∧
    (∀ (i : Nat) (h : i < qs.length),
      (askAll s qs).messages[2 * i]? = some ⟨.user, (qs.get ⟨i, h⟩).1, none⟩ ∧
      (askAll s qs).messages[2 * i + 1]? = some (assistantMessage (qs.get ⟨i, h⟩).2) ∧
      (∀ d, (qs.get ⟨i, h⟩).2 = .resolved d →
        (askAll s qs).messages[2 * i + 1]? = some ⟨.assistant, d.answer, some d.sources⟩)) ∧
    (∀ (i : Nat) (m : Message), (askAll s qs).messages[i]? = some m →
      m.sender = if i % 2 = 0 then .user else .assistant) ∧
    (∀ k, (askAll s (qs.take k)).messages <+: (askAll s (qs.take (k + 1))).messages) ∧
    (∀ t : ChatState, t.messages <+: (handleQuerySubmit t).1.messages) ∧
    (∀ (t : ChatState) (r : Settled QueryData),
      t.messages <+: (handleQuerySubmitResume t r).messages) := by
  have hall : (askAll s qs).messages = expectedTurns qs := by
    rw [askAll_messages qs s hl hq, hm, List.nil_append]
  refine ⟨hall, ?_, ?_, ?_, ?_, handleQuerySubmit_history, ?_⟩
  · rw [hall, expectedTurns_length]
  · intro i h
    rw [hall]
    have := expectedTurns_get qs i h
    refine ⟨this.1, this.2, ?_⟩
    intro d hd
    rw [this.2, hd]
    rfl
  · intro i m hi
    rw [hall] at hi
    have hlen : i < 2 * qs.length := by
      rw [← expectedTurns_length]
      exact (List.getElem?_eq_some.mp hi).1
    rcases Nat.even_or_odd' i with ⟨j, hj | hj⟩
    · have hjl : j < qs.length := by omega
      have := (expectedTurns_get qs j hjl).1
      rw [← hj, hi] at this
      have hmod : i % 2 = 0 := by omega
      rw [Option.some.inj this]
      simp [hmod]
    · have hjl : j < qs.length := by omega
      have := (expectedTurns_get qs j hjl).2
      rw [← hj, hi] at this
      have hmod : ¬ i % 2 = 0 := by omega
      rw [Option.some.inj this]
      simp [hmod, assistantMessage_sender]
  · intro k
    have h1 := askAll_messages (qs.take k) s hl (fun p hp => hq p (List.mem_of_mem_take hp))
    have h2 := askAll_messages (qs.take (k + 1)) s hl
      (fun p hp => hq p (List.mem_of_mem_take hp))
    rw [h1, h2, hm]
    simp only [List.nil_append]
    by_cases hk : k < qs.length
    · have : qs.take (k + 1) = qs.take k ++ [qs.get ⟨k, hk⟩] := by
        rw [List.take_succ, List.getElem?_eq_getElem hk]
        rfl
      rw [this]
      have happ : ∀ a b : List (String × Settled QueryData),
          expectedTurns (a ++ b) = expectedTurns a ++ expectedTurns b := by
        intro a b
        induction a with
        | nil => rfl
        | cons p rest ih => obtain ⟨q, r⟩ := p; simp [expectedTurns, ih]
      rw [happ]
      exact List.prefix_append _ _
    · have e1 : qs.take k = qs := List.take_of_length_le (by omega)
      have e2 : qs.take (k + 1) = qs := List.take_of_length_le (by omega)
      rw [e1, e2]
  · intro t r
    exact List.prefix_append _ _

/-- Instance of C5: one answered question, then one failed question. -/
theorem askAll_history_witness :
    (askAll Chat.initial
      [("first", .resolved ⟨"one", [⟨"a.txt", 0, "x"⟩, ⟨"b.txt", 3, "y"⟩]⟩),
       ("second", .rejected ⟨none⟩)]).messages =
    [⟨.user, "first", none⟩,
     ⟨.assistant, "one", some [⟨"a.txt", 0, "x"⟩, ⟨"b.txt", 3, "y"⟩]⟩,
     ⟨.user, "second", none⟩,
     ⟨.assistant, "Error: Failed to get an answer.", some []⟩] :=
  (askAll_history Chat.initial
    [("first", .resolved ⟨"one", [⟨"a.txt", 0, "x"⟩, ⟨"b.txt", 3, "y"⟩]⟩),
     ("second", .rejected ⟨none⟩)] rfl rfl (by decide)).1.trans (by decide)

/-! ### Root view -/

/-- C6, as stated, fails: a Root view that holds the one-document list
`[{id: "1", filename: "report.pdf"}]` still holds it after a failed fetch; the
list is not emptied. -/
theorem fetchDocs_failure_keeps_list :
    (fetchDocsResume
        (fetchDocs
          { activeTab := .chat, docs := [⟨"1", "report.pdf"⟩], loadingDocs := false,
            docError := "", uploadView := none, chatView := some Chat.initial }).1
        (.rejected ⟨none⟩)).1.docs = [⟨"1", "report.pdf"⟩] ∧
    (fetchDocsResume
        (fetchDocs
          { activeTab := .chat, docs := [⟨"1", "report.pdf"⟩], loadingDocs := false,
            docError := "", uploadView := none, chatView := some Chat.initial }).1
        (.rejected ⟨none⟩)).1.docs ≠ [] := by
  refine ⟨rfl, by decide⟩

/-- C6, amended: for every Root state, a failed fetch sets the error flag to
the (non-empty) text `"Could not load document list."`, clears the loading
flag, and leaves the Document list as it was before the fetch; on initial
activation that list is empty. -/
theorem fetchDocs_failure (s : AppState) (e : AxiosError) :
    (fetchDocsResume (fetchDocs s).1 (.rejected e)).1.docError =
      "Could not load document list." ∧
    jsTruthy (fetchDocsResume (fetchDocs s).1 (.rejected e)).1.docError = true ∧
    (fetchDocsResume (fetchDocs s).1 (.rejected e)).1.loadingDocs = false ∧
    (fetchDocsResume (fetchDocs s).1 (.rejected e)).1.docs = s.docs ∧
    (fetchDocsResume (fetchDocs App.initial).1 (.rejected e)).1.docs = [] := by
  refine ⟨rfl, ?_, rfl, rfl, rfl⟩
  show jsTruthy "Could not load document list." = true
  decide

/-- C7: declining the confirmation issues no network call and leaves the Root
state unchanged; confirming issues the reset request, after the prompt; when
the reset succeeds a Document-list fetch is started, and when it fails no
request is issued and the whole Root state (Document list, flags, active tab,
mounted views) is unchanged. -/
theorem handleReset_contract (s : AppState) (e : AxiosError) :
    (handleReset s false).1 = s ∧
    networkCalls (handleReset s false).2 = [] ∧
    (handleReset s true).1 = s ∧
    (handleReset s true).2 =
      [.confirm "Are you sure you want to delete all uploaded data? This cannot be undone.",
       .request ⟨.post, "/api/reset", .empty⟩] ∧
    handleResetResume s (.resolved ()) =
      ((fetchDocs s).1,
       [.alert "All data has been successfully reset.",
        .request ⟨.get, "/api/documents", .empty⟩]) ∧
    networkCalls (handleResetResume s (.resolved ())).2 = [listDocuments] ∧
    (handleResetResume s (.rejected e)).1 = s ∧
    networkCalls (handleResetResume s (.rejected e)).2 = [] := by
  refine ⟨rfl, rfl, rfl, ?_, ?_, rfl, rfl, rfl⟩
  · simp [handleReset, resetAllData, API_URL]
  · simp [handleResetResume, fetchDocs, listDocuments, API_URL]

/-- C9, as stated, fails: a Chat view that holds a two-turn history has an empty
history after the active tab goes from chat to upload and back to chat. -/
theorem tab_switch_drops_history :
    (setActiveTab
        (setActiveTab
          { activeTab := .chat, docs := [], loadingDocs := false, docError := "",
            uploadView := none,
            chatView := some
              { query := "", loading := false, selectedDoc := "all",
                messages := [⟨.user, "hi", none⟩, ⟨.assistant, "hello", some []⟩] } }
          .upload)
        .chat).chatView.map (fun c => c.messages) = some [] ∧
    (setActiveTab
        (setActiveTab
          { activeTab := .chat, docs := [], loadingDocs := false, docError := "",
            uploadView := none,
            chatView := some
              { query := "", loading := false, selectedDoc := "all",
                messages := [⟨.user, "hi", none⟩, ⟨.assistant, "hello", some []⟩] } }
          .upload)
        .chat).chatView.map (fun c => c.messages) ≠
      some [⟨.user, "hi", none⟩, ⟨.assistant, "hello", some []⟩] := by
  refine ⟨rfl, by decide⟩

/-- C9, amended: switching the active tab to upload unmounts the Chat view, and
switching back to chat mounts a fresh one: whatever history was held before,
the Chat view is then in its initial state and its history is empty. -/
theorem tab_switch_remounts_chat (s : AppState) :
    (setActiveTab s .upload).chatView = none ∧
    (setActiveTab (setActiveTab s .upload) .chat).chatView = some Chat.initial ∧
    (setActiveTab (setActiveTab s .upload) .chat).chatView.map (fun c => c.messages) =
      some [] := by
  refine ⟨rfl, rfl, rfl⟩

/-- C10, as stated, fails: two fetches overlap (the one started on mount and
one started by the refresh button), the first fails and then the second
succeeds with the list `[{id: "1", filename: "report.pdf"}]`; the Document
list is that list and the loading flag is false, but the error flag still
reads `"Could not load document list."`. -/
theorem fetchDocs_success_keeps_error :
    (fetchDocsResume
        (fetchDocsResume (fetchDocs (fetchDocs App.initial).1).1 (.rejected ⟨none⟩)).1
        (.resolved [⟨"1", "report.pdf"⟩])).1.docs = [⟨"1", "report.pdf"⟩] ∧
    (fetchDocsResume
        (fetchDocsResume (fetchDocs (fetchDocs App.initial).1).1 (.rejected ⟨none⟩)).1
        (.resolved [⟨"1", "report.pdf"⟩])).1.loadingDocs = false ∧
    (fetchDocsResume
        (fetchDocsResume (fetchDocs (fetchDocs App.initial).1).1 (.rejected ⟨none⟩)).1
        (.resolved [⟨"1", "report.pdf"⟩])).1.docError = "Could not load document list." ∧
    (fetchDocsResume
        (fetchDocsResume (fetchDocs (fetchDocs App.initial).1).1 (.rejected ⟨none⟩)).1
        (.resolved [⟨"1", "report.pdf"⟩])).1.docError ≠ "" := by
  refine ⟨rfl, rfl, rfl, by decide⟩

/-- C10, amended: for every Root state `s` a fetch issues the one request
`GET /api/documents`, sets the loading flag and empties the error flag; for
every Root state `t` in which the fetch later succeeds with the list `L`, the
Document list becomes `L` itself and the loading flag false, and nothing else
changes: the error flag keeps the value it has in `t`.  So the error flag is
empty after the refresh when nothing wrote it between the start of the fetch
and its success, as when the success follows the start directly. -/
theorem fetchDocs_success (s t : AppState) (L : List Document) :
    fetchDocs s =
      ({ s with loadingDocs := true, docError := "" },
       [.request ⟨.get, "/api/documents", .empty⟩]) ∧
    fetchDocsResume t (.resolved L) = ({ t with docs := L, loadingDocs := false }, []) ∧
    (fetchDocsResume t (.resolved L)).1.docs = L ∧
    (fetchDocsResume t (.resolved L)).1.loadingDocs = false ∧
    (fetchDocsResume t (.resolved L)).1.docError = t.docError ∧
    (fetchDocsResume (fetchDocs s).1 (.resolved L)).1 =
      { s with docs := L, docError := "", loadingDocs := false } ∧
    (fetchDocsResume (fetchDocs s).1 (.resolved L)).1.docs = L ∧
    (fetchDocsResume (fetchDocs s).1 (.resolved L)).1.docError = "" ∧
    (fetchDocsResume (fetchDocs s).1 (.resolved L)).1.loadingDocs = false := by
  refine ⟨?_, rfl, rfl, rfl, rfl, rfl, rfl, rfl, rfl⟩
  simp [fetchDocs, listDocuments, API_URL]

/-! ### Upload view -/

/-- C8: with no file selected `handleUpload` issues no effect and changes only
the message, to `"Please select a file first."`; with a file selected it sets
the uploading flag and the progress message, keeps the file, and issues
exactly one effect, the upload request for that file.  When the request
settles, in whatever Upload state `t`, the uploading flag is cleared; on
success the selected file is cleared and the message names the returned
filename and id; on failure the selected file is left as it is and the message
is the error mark followed by the server detail when the error carries a
non-empty one, and by `"An unexpected error occurred."` when it carries none
or an empty one.  So after an upload of `f` the selected file is cleared
exactly when the upload succeeded, and after a failure `f` is still
selected. -/
theorem handleUpload_contract (u cb : Bool) (m : String) (f : File) (t : UploadState)
    (r : Settled UploadResult) (d : UploadResult) (e : AxiosError) :
    handleUpload ⟨none, u, m⟩ = (⟨none, u, "Please select a file first."⟩, []) ∧
    handleUpload ⟨some f, u, m⟩ =
      (⟨some f, true, "Uploading " ++ f.name ++ "..."⟩,
       [.request ⟨.post, "/api/upload", .formData f⟩]) ∧
    handleUploadResume cb t (.resolved d) =
      (⟨none, false,
        "✅ Success: " ++ d.filename ++ " is being processed. (ID: " ++ d.upload_id ++ ")"⟩,
       if cb then [.onUploadSuccess] else []) ∧
    (handleUploadResume cb t (.rejected e)).1.selectedFile = t.selectedFile ∧
    (handleUploadResume cb t (.rejected e)).1.uploading = false ∧
    networkCalls (handleUploadResume cb t r).2 = [] ∧
    (∀ x, e.detail = some x → x ≠ "" →
      (handleUploadResume cb t (.rejected e)).1.message = "❌ Error: " ++ x) ∧
    (e.detail = none ∨ e.detail = some "" →
      (handleUploadResume cb t (.rejected e)).1.message =
        "❌ Error: An unexpected error occurred.") ∧
    (handleUploadResume cb (handleUpload ⟨some f, u, m⟩).1 r).1.uploading = false ∧
    ((handleUploadResume cb (handleUpload ⟨some f, u, m⟩).1 r).1.selectedFile = none ↔
      ∃ x, r = .resolved x) ∧
    (handleUploadResume cb (handleUpload ⟨some f, u, m⟩).1 (.rejected e)).1.selectedFile =
      some f := by
  refine ⟨rfl, ?_, rfl, rfl, rfl, ?_, ?_, ?_, ?_, ?_, rfl⟩
  · simp [handleUpload, uploadFile, API_URL]
  · cases r with
    | resolved x => cases cb <;> rfl
    | rejected err => rfl
  · intro x hx hne
    have : x.data ≠ [] := fun h => hne (String.ext h)
    simp [handleUploadResume, hx, jsOr, jsTruthy, this]
  · rintro (h | h)
    · simp [handleUploadResume, h, jsOr]
    · simp [handleUploadResume, h, jsOr, jsTruthy]
  · cases r <;> rfl
  · cases r with
    | resolved x => simp [handleUploadResume, handleUpload]
    | rejected err => simp [handleUploadResume, handleUpload]

/-- Instance of C8: `report.pdf` is uploaded and the server answers with the
detail `Unsupported file type.`; the message shows that detail. -/
theorem handleUpload_contract_witness :
    (handleUploadResume true (handleUpload ⟨some ⟨"report.pdf", [37, 80]⟩, false, ""⟩).1
        (.rejected ⟨some ⟨some ⟨some "Unsupported file type."⟩⟩⟩)).1.message =
      "❌ Error: " ++ "Unsupported file type." :=
  (handleUpload_contract false true "" ⟨"report.pdf", [37, 80]⟩
      (handleUpload ⟨some ⟨"report.pdf", [37, 80]⟩, false, ""⟩).1
      (.rejected ⟨none⟩) ⟨"report.pdf", "abc123"⟩
      ⟨some ⟨some ⟨some "Unsupported file type."⟩⟩⟩).2.2.2.2.2.2.1
    "Unsupported file type." rfl (by decide)

end KaaS
